import Mathlib

/-!
Shallow embedding of the vic provider of virtual-kubelet
(`providers/vic/pod_proxy.go`, `providers/vic/proxy/image_store.go`,
`providers/vic/proxy/isolation_proxy.go`).

Modelling conventions:
* Go strings are modelled as `List Char` (`GoStr`); `strings.HasPrefix` is
  `goHasPfx`, the key part of `strings.SplitN(e, "=", 2)` is `splitKey`.
* Go `int64` values are modelled as `Int`; Go division and remainder truncate
  toward zero, which is `Int.tdiv` / `Int.tmod` (`goDiv` / `goMod`).  No
  operation in the modelled code can overflow 64 bits on in-range inputs.
* Remote port-layer calls are modelled by oracle functions passed as explicit
  arguments; each modelled method additionally returns the list of remote
  calls it issued (a `List RemoteCall`), so that frame/effect properties can
  be stated.
* Go `nil` pointers become `Option`; a Go function returning a pointer that
  is never nil returns `some _`.
* Go maps (`PortMap`) are modelled as association lists; Go's map iteration
  order is unspecified, the list order stands for one such order.
* Go panics (indexing an empty slice) are modelled by `Option.none` results.
-/

abbrev GoStr := List Char

/-- Go `strings.HasPrefix s p`. -/
def goHasPfx : (s p : GoStr) → Bool
  | _, [] => true
  | [], _ :: _ => false
  | c :: cs, p :: ps => c == p && goHasPfx cs ps

/-- First component of Go `strings.SplitN(e, "=", 2)`: the text before the
first `=`, or the whole string when it has no `=`. -/
def splitKey (s : GoStr) : GoStr := s.takeWhile (fun c => c ≠ '=')

/-- Go `x / y` on `int64`: truncated division. -/
def goDiv (a b : Int) : Int := Int.tdiv a b

/-- Go `x % y` on `int64`: truncated remainder (sign of the dividend). -/
def goMod (a b : Int) : Int := Int.tmod a b

/-- Digit-string value accumulator used by `goAtoi`; `none` on the first
non-digit character. -/
def parseDigitsCore : Nat → GoStr → Option Nat
  | acc, [] => some acc
  | acc, c :: cs =>
    if c.isDigit then parseDigitsCore (acc * 10 + (c.toNat - ('0').toNat)) cs
    else none

/-- Go `strconv.Atoi`: optional sign, decimal digits, 64-bit range check;
`none` models a non-nil error (including `ErrRange`). -/
def goAtoi (s : GoStr) : Option Int :=
  match s with
  | [] => none
  | c :: rest =>
    if c = '-' then
      match rest, parseDigitsCore 0 rest with
      | [], _ => none
      | _, some v => if v ≤ 2 ^ 63 then some (-(v : Int)) else none
      | _, none => none
    else if c = '+' then
      match rest, parseDigitsCore 0 rest with
      | [], _ => none
      | _, some v => if v ≤ 2 ^ 63 - 1 then some (v : Int) else none
      | _, none => none
    else
      match parseDigitsCore 0 s with
      | some v => if v ≤ 2 ^ 63 - 1 then some (v : Int) else none
      | none => none

/-- Error taxonomy of `lib/apiservers/engine/errors` plus the two ad-hoc
errors produced by the modelled code (`fmt.Errorf` on CPU parse failure, and
the handle type-assertion failure, which Go renders as an
`InternalServerError` with a formatted message). -/
inductive Err
  | internalServerError (msg : GoStr)
  | notFound (msg : GoStr)
  | conflict (msg : GoStr)
  | badRequest (msg : GoStr)
  | typeAssertionFailed
  | cpuParseError
deriving DecidableEq

/-- `proxy.PortBinding`. -/
structure PortBinding where
  HostIP : GoStr := []
  HostPort : GoStr := []
deriving DecidableEq

/-- `proxy.IsolationContainerConfig`.  `PortMap` (a Go map) is an
association list from container-port key to binding. -/
structure IsolationContainerConfig where
  ID : GoStr := []
  ImageID : GoStr := []
  LayerID : GoStr := []
  ImageName : GoStr := []
  Name : GoStr := []
  Namespace : GoStr := []
  Cmd : List GoStr := []
  Path : GoStr := []
  Entrypoint : List GoStr := []
  Env : List GoStr := []
  WorkingDir : GoStr := []
  User : GoStr := []
  StopSignal : GoStr := []
  Attach : Bool := false
  StdinOnce : Bool := false
  OpenStdin : Bool := false
  Tty : Bool := false
  CPUCount : Int := 0
  Memory : Int := 0
  PortMap : List (GoStr × PortBinding) := []
deriving DecidableEq

/-- `models.NetworkConfig` (the fields the code uses). -/
structure NetworkConfig where
  NetworkName : GoStr := []
  Ports : List GoStr := []
deriving DecidableEq

/-- `models.TaskJoinConfig` (the fields the code sets). -/
structure TaskJoinConfig where
  ID : GoStr := []
  Namespace : GoStr := []
  Handle : GoStr := []
  Path : GoStr := []
  Args : List GoStr := []
  Env : List GoStr := []
  WorkingDir : GoStr := []
  User : GoStr := []
  Attach : Bool := false
  OpenStdin : Bool := false
  Tty : Bool := false
  StopSignal : GoStr := []
deriving DecidableEq

/-- One remote port-layer request issued by the isolation proxy. -/
inductive RemoteCall
  | taskJoin (cfg : TaskJoinConfig)
  | taskBind (handle id : GoStr)
  | scopeAdd (scope handle : GoStr) (netConf : NetworkConfig)
  | scopeRemove (scope handle : GoStr)
deriving DecidableEq

/-- `networkConfigFromIsolationConfig` (isolation_proxy.go).  The Go function
returns a `*models.NetworkConfig`; it allocates the struct unconditionally,
so the returned pointer is never nil — hence always `some`.  Each port map
entry is rendered `fmt.Sprintf("%s:%s", val.HostPort, key)`. -/
def networkConfigFromIsolationConfig (config : IsolationContainerConfig) :
    Option NetworkConfig :=
  some { NetworkName := ("default").data,
         Ports := config.PortMap.map
           (fun kv => kv.2.HostPort ++ (":").data ++ kv.1) }

/-- `VicIsolationProxy.AddHandleToScope`.  `addContainer scope handle nc`
is the oracle for `client.Scopes.AddContainer` (payload is a plain string
handle, or an error message).  Returns (calls issued, handle, error).

The deferred rollback closure in the Go source is registered only after the
`err != nil` early return, and `err` is never assigned after registration,
so at function exit the closure always sees `err == nil`: the
`RemoveContainer` branch inside it is unreachable.  `exitErr` below is the
value of `err` the deferred closure observes. -/
def AddHandleToScope
    (addContainer : GoStr → GoStr → NetworkConfig → Except GoStr GoStr)
    (handle : GoStr) (config : IsolationContainerConfig) :
    List RemoteCall × GoStr × Option Err :=
  match networkConfigFromIsolationConfig config with
  | none => ([], handle, none)
  | some nc =>
    match addContainer nc.NetworkName handle nc with
    | Except.error e =>
      ([RemoteCall.scopeAdd nc.NetworkName handle nc], handle,
       some (Err.internalServerError e))
    | Except.ok payload =>
      let exitErr : Option Err := none
      let rollback : List RemoteCall :=
        match exitErr with
        | none => []
        | some _ => [RemoteCall.scopeRemove nc.NetworkName handle]
      (RemoteCall.scopeAdd nc.NetworkName handle nc :: rollback, payload,
       exitErr)

/-- `IsolationContainerConfigToTask` (isolation_proxy.go).  `none` models the
Go panic on `cmd[0]` when both `Entrypoint` and `Cmd` are empty.  The
`ctx`/tracing argument is dropped. -/
def IsolationContainerConfigToTask (id layerID : GoStr)
    (ic : IsolationContainerConfig) : Option TaskJoinConfig :=
  match ic.Entrypoint, ic.Cmd with
  | e :: es, cmd =>
    some { ID := id, Namespace := layerID, Path := e, Args := es ++ cmd,
           Env := ic.Env, WorkingDir := ic.WorkingDir, User := ic.User,
           Attach := true, OpenStdin := ic.OpenStdin, Tty := ic.Tty,
           StopSignal := ic.StopSignal }
  | [], c :: cs =>
    some { ID := id, Namespace := layerID, Path := c, Args := cs,
           Env := ic.Env, WorkingDir := ic.WorkingDir, User := ic.User,
           Attach := true, OpenStdin := ic.OpenStdin, Tty := ic.Tty,
           StopSignal := ic.StopSignal }
  | [], [] => none

/-- `VicIsolationProxy.CreateHandleTask`.  `joinRes`/`bindRes` are oracles
for `client.Tasks.Join` / `client.Tasks.Bind`; their payload handle is an
`interface{}` in Go, so `Except.ok none` models a payload whose handle is
not a string (the failed type assertion).  The outer `none` models the Go
panic inherited from `IsolationContainerConfigToTask`.  Returns
(calls issued, result). -/
def CreateHandleTask
    (joinRes : TaskJoinConfig → Except GoStr (Option GoStr))
    (bindRes : GoStr → GoStr → Except GoStr (Option GoStr))
    (handle id layerID : GoStr) (ic : IsolationContainerConfig) :
    Option (List RemoteCall × Except Err GoStr) :=
  match IsolationContainerConfigToTask id layerID ic with
  | none => none
  | some t0 =>
    let t := { t0 with Handle := handle }
    match joinRes t with
    | Except.error e =>
      some ([RemoteCall.taskJoin t],
            Except.error (Err.internalServerError e))
    | Except.ok none =>
      some ([RemoteCall.taskJoin t], Except.error Err.typeAssertionFailed)
    | Except.ok (some h1) =>
      match bindRes h1 id with
      | Except.error e =>
        some ([RemoteCall.taskJoin t, RemoteCall.taskBind h1 id],
              Except.error (Err.internalServerError e))
      | Except.ok none =>
        some ([RemoteCall.taskJoin t, RemoteCall.taskBind h1 id],
              Except.error Err.typeAssertionFailed)
      | Except.ok (some h2) =>
        some ([RemoteCall.taskJoin t, RemoteCall.taskBind h1 id],
              Except.ok h2)

/-- `VicImageStore.Get` (image_store.go).  `cacheGet1` is the result of the
first `cache.ImageCache().Get(idOrRef)` (config, error), `pullImage` the
result of `v.PullImage`, and `cacheGet2` the result of the second cache
lookup performed after a successful pull.  The image config type is opaque
to this function, hence the type parameter. -/
def VicImageStore.Get {α : Type}
    (cacheGet1 cacheGet2 : Option α × Option GoStr)
    (pullImage : Option GoStr) (actuate : Bool) :
    Option α × Option GoStr :=
  let c := cacheGet1.1
  let err := cacheGet1.2
  if err.isSome && actuate then
    let err := pullImage
    if err.isNone then
      let c2 := cacheGet2.1
      let err2 := cacheGet2.2
      if err2.isSome then (none, err2)
      else (c2, none)
    else (c, none)
  else (c, none)

/-- `v1.Container` (the fields `KubeSpecToDockerCreateSpec` reads).
`CpuLimit`/`MemoryLimit` are `cSpec.Resources.Limits.Cpu().Value()` and
`...Memory().Value()`. -/
structure KubeContainer where
  Name : GoStr := []
  Image : GoStr := []
  Command : List GoStr := []
  Args : List GoStr := []
  WorkingDir : GoStr := []
  TTY : Bool := false
  Stdin : Bool := false
  StdinOnce : Bool := false
  CpuLimit : Int := 0
  MemoryLimit : Int := 0
deriving DecidableEq

/-- `v1.Pod` restricted to what `CreatePod` reads (`pod.Spec.Containers`,
`pod.Name`). -/
structure Pod where
  Name : GoStr := []
  Containers : List KubeContainer := []
deriving DecidableEq

/-- docker `container.Config` (the fields the vic provider touches).  Zero
values of the Go struct are the field defaults. -/
structure ContainerConfig where
  Cmd : List GoStr := []
  Entrypoint : List GoStr := []
  Env : List GoStr := []
  WorkingDir : GoStr := []
  Image : GoStr := []
  User : GoStr := []
  Tty : Bool := false
  StdinOnce : Bool := false
  OpenStdin : Bool := false
deriving DecidableEq

/-- docker `container.HostConfig` restricted to the resource fields the vic
provider touches (`Resources.CPUCount`, `Resources.CpusetCpus`,
`Resources.Memory`). -/
structure HostConfig where
  CPUCount : Int := 0
  CpusetCpus : GoStr := []
  Memory : Int := 0
deriving DecidableEq

/-- `types.ContainerCreateConfig`; `Config`/`HostConfig` are pointers in Go,
hence `Option`. -/
structure ContainerCreateConfig where
  Name : GoStr := []
  Config : Option ContainerConfig := none
  HostConfig : Option HostConfig := none
deriving DecidableEq

-- Constants of pod_proxy.go.
def defaultEnvPath : GoStr :=
  ("/usr/local/sbin:/usr/local/bin:/usr/sbin:/usr/bin:/sbin:/bin").data

def MemoryAlignMB : Int := 128

def MemoryMinMB : Int := 512

def MemoryDefaultMB : Int := 2048

def MinCPUs : Int := 1

def DefaultCPUs : Int := 2

/-- `units.MiB` = 1024 * 1024. -/
def MiB : Int := 1048576

/-- `KubeSpecToDockerCreateSpec` (pod_proxy.go).  `cSpec.Args` is read
nowhere (the source carries a TODO for it). -/
def KubeSpecToDockerCreateSpec (cSpec : KubeContainer) : ContainerCreateConfig :=
  let config : ContainerCreateConfig :=
    { Name := cSpec.Name,
      Config := some { WorkingDir := cSpec.WorkingDir, Image := cSpec.Image,
                       Tty := cSpec.TTY, StdinOnce := cSpec.StdinOnce,
                       OpenStdin := cSpec.Stdin },
      HostConfig := some {} }
  let config :=
    if cSpec.Command.length ≠ 0 then
      { config with
        Config := some { (config.Config.getD {}) with Cmd := cSpec.Command } }
    else config
  { config with
    HostConfig := some { (config.HostConfig.getD {}) with
      CPUCount := cSpec.CpuLimit, Memory := cSpec.MemoryLimit } }

/-- The per-container loop body of `PodProxy.CreatePod`: each kube spec is
translated and handed to `p.createContainer`; a non-nil error is only
logged (`op.Errorf`) and the loop continues.  `create` is the oracle for
`p.createContainer`; the returned list is the sequence of create configs
actually attempted. -/
def createPodLoop (create : ContainerCreateConfig → Option Err) :
    List KubeContainer → List ContainerCreateConfig
  | [] => []
  | c :: cs =>
    let createConfig := KubeSpecToDockerCreateSpec c
    let _err := create createConfig
    createConfig :: createPodLoop create cs

/-- `PodProxy.CreatePod` (pod_proxy.go): iterates the pod's containers and
returns `nil` unconditionally.  Result: (configs attempted, returned
error). -/
def CreatePod (create : ContainerCreateConfig → Option Err) (pod : Pod) :
    List ContainerCreateConfig × Option Err :=
  (createPodLoop create pod.Containers, none)

/-- The test `strings.HasPrefix(v, "PATH=")` used (twice) by
`setPathFromImageConfig`. -/
def isPathEntry (v : GoStr) : Bool := goHasPfx v (("PATH=").data)

/-- Number of `PATH=`-prefixed entries of an environment. -/
def countPATH (env : List GoStr) : Nat := (env.filter isPathEntry).length

/-- `setPathFromImageConfig` (pod_proxy.go). -/
def setPathFromImageConfig (env imgEnv : List GoStr) : List GoStr :=
  if env.any isPathEntry then env
  else
    match imgEnv.find? isPathEntry with
    | some v => env ++ [v]
    | none => env ++ [("PATH=").data ++ defaultEnvPath]

/-- The part of `setEnvFromImageConfig` (pod_proxy.go) after the PATH step:
`containerEnv` is a map built from `env` (the env returned by
`setPathFromImageConfig`); only its key set matters, and it is *not*
updated when `TERM=xterm` is appended, so an image `TERM` can still be
appended afterwards. -/
def envMergeAfterPath (tty : Bool) (env imgEnv : List GoStr) : List GoStr :=
  let keys := env.map splitKey
  let env2 :=
    if tty && !(keys.contains (("TERM").data)) then
      env ++ [("TERM=xterm").data]
    else env
  env2 ++ imgEnv.filter (fun e => !(keys.contains (splitKey e)))

/-- `setEnvFromImageConfig` (pod_proxy.go): PATH step, then TERM injection
and image-env append. -/
def setEnvFromImageConfig (tty : Bool) (env imgEnv : List GoStr) :
    List GoStr :=
  envMergeAfterPath tty (setPathFromImageConfig env imgEnv) imgEnv

/-- `strings.Split(CpusetCpus, ",")[0]`: the text before the first comma
(the whole string when it has none). -/
def cpusetFirst (s : GoStr) : GoStr := s.takeWhile (fun c => c ≠ ',')

/-- The memory fix-up block of `validateCreateConfig` (pod_proxy.go lines
252–266): convert bytes to MiB, default a zero value, floor at the minimum,
then round up to the alignment boundary. -/
def normalizeMemoryMB (memory : Int) : Int :=
  let memoryMB := goDiv memory MiB
  let memoryMB :=
    if memoryMB = 0 then MemoryDefaultMB
    else if memoryMB < MemoryMinMB then MemoryMinMB
    else memoryMB
  let r := goMod memoryMB MemoryAlignMB
  if r ≠ 0 then memoryMB + (MemoryAlignMB - r) else memoryMB

/-- `validateCreateConfig` (pod_proxy.go).  Mutation of the config struct is
modelled by returning the updated config together with the error; on the
CPU-parse error path the Go code has already replaced a nil `HostConfig`
with a fresh one but touched nothing else. -/
def validateCreateConfig (config : ContainerCreateConfig) :
    ContainerCreateConfig × Option Err :=
  match config.Config with
  | none => (config, some (Err.badRequest (("invalid config").data)))
  | some _ =>
    let hc := config.HostConfig.getD {}
    let cpuRes : Except Err Int :=
      if hc.CPUCount > 0 then Except.ok hc.CPUCount
      else if hc.CpusetCpus ≠ [] then
        match goAtoi (cpusetFirst hc.CpusetCpus) with
        | some c => Except.ok c
        | none => Except.error Err.cpuParseError
      else Except.ok DefaultCPUs
    match cpuRes with
    | Except.error e => ({ config with HostConfig := some hc }, some e)
    | Except.ok cpuCount =>
      let cpuCount := if cpuCount < MinCPUs then MinCPUs else cpuCount
      let memoryMB := normalizeMemoryMB hc.Memory
      ({ config with
         HostConfig :=
           some { hc with CPUCount := cpuCount, Memory := memoryMB } },
       none)

/-! ### Concrete fixtures used by counterexamples and witnesses -/

/-- Oracle: `AddContainer` succeeds and returns a fresh handle. -/
def addOkX : GoStr → GoStr → NetworkConfig → Except GoStr GoStr :=
  fun _ h _ => Except.ok (h ++ ("X").data)

/-- Oracle: `AddContainer` fails. -/
def addFailBoom : GoStr → GoStr → NetworkConfig → Except GoStr GoStr :=
  fun _ _ _ => Except.error (("boom").data)

/-- A config with no port bindings (all Go zero values). -/
def cfgNoPorts : IsolationContainerConfig := {}

/-- A config with one port binding 80/tcp → host port 8080. -/
def cfgOnePort : IsolationContainerConfig :=
  { PortMap := [(("80/tcp").data, { HostPort := ("8080").data })] }

/-- Recognizer for `RemoveContainer` calls. -/
def isScopeRemove : RemoteCall → Bool
  | RemoteCall.scopeRemove _ _ => true
  | _ => false

/-- Spec scenario: command only, no entrypoint. -/
def ic4a : IsolationContainerConfig :=
  { Cmd := [("/bin/sh").data, ("-c").data, ("echo hi").data] }

/-- Spec scenario: entrypoint plus command. -/
def ic4b : IsolationContainerConfig :=
  { Entrypoint := [("/init").data], Cmd := [("--flag").data] }

/-- Successful `Tasks.Join` oracle. -/
def joinW8 : TaskJoinConfig → Except GoStr (Option GoStr) :=
  fun _ => Except.ok (some (("h1").data))

/-- Successful `Tasks.Bind` oracle. -/
def bindW8 : GoStr → GoStr → Except GoStr (Option GoStr) :=
  fun _ _ => Except.ok (some (("h2").data))

/-- Minimal runnable config for the task pipeline. -/
def icW8 : IsolationContainerConfig := { Cmd := [("sh").data] }

/-- The task-join request `CreateHandleTask` builds from `icW8`. -/
def tW8 : TaskJoinConfig :=
  { ID := ("cid").data, Namespace := ("lay").data, Handle := ("h0").data,
    Path := ("sh").data, Attach := true }

/-! ### Helper lemmas -/

theorem createPodLoop_eq_map (create : ContainerCreateConfig → Option Err) :
    ∀ cs : List KubeContainer,
      createPodLoop create cs = cs.map KubeSpecToDockerCreateSpec
  | [] => rfl
  | c :: cs => by
    simp [createPodLoop, createPodLoop_eq_map create cs]

theorem toTask_attach {id layerID : GoStr} {ic : IsolationContainerConfig}
    {t : TaskJoinConfig}
    (h : IsolationContainerConfigToTask id layerID ic = some t) :
    t.Attach = true := by
  unfold IsolationContainerConfigToTask at h
  rcases he : ic.Entrypoint with _ | ⟨e, es⟩ <;>
    rcases hc : ic.Cmd with _ | ⟨c, cs⟩ <;>
      rw [he, hc] at h <;> simp_all <;> simp [← h]

/-! ### Claim theorems -/

/-- C1 counterexample: on a configuration with an empty port map,
`AddHandleToScope` nevertheless issues an AddContainer request to the
default scope and returns the response handle, not the input handle
(`networkConfigFromIsolationConfig` never returns nil, so the guard in
`AddHandleToScope` is always taken). -/
theorem c1_counterexample :
    cfgNoPorts.PortMap = []
    ∧ (AddHandleToScope addOkX (("h0").data) cfgNoPorts).1 =
        [RemoteCall.scopeAdd (("default").data) (("h0").data)
          { NetworkName := ("default").data, Ports := [] }]
    ∧ (AddHandleToScope addOkX (("h0").data) cfgNoPorts).2.1 ≠ ("h0").data := by
  decide

/-- C1 (amended): for every configuration whose port map is empty,
`AddHandleToScope` issues exactly one AddContainer request, to the
`"default"` scope with an empty port list and no RemoveContainer, and
returns the response payload handle on success or the input handle plus an
internal error on failure. -/
theorem c1_amended_empty_portmap_still_calls
    (addContainer : GoStr → GoStr → NetworkConfig → Except GoStr GoStr)
    (handle : GoStr) (config : IsolationContainerConfig)
    (hpm : config.PortMap = []) :
    AddHandleToScope addContainer handle config =
      ([RemoteCall.scopeAdd (("default").data) handle
          { NetworkName := ("default").data, Ports := [] }],
       match addContainer (("default").data) handle
           { NetworkName := ("default").data, Ports := [] } with
       | Except.ok payload => (payload, none)
       | Except.error e => (handle, some (Err.internalServerError e))) := by
  unfold AddHandleToScope networkConfigFromIsolationConfig
  rw [hpm]
  rcases h : addContainer (("default").data) handle
      { NetworkName := ("default").data, Ports := [] } with e | payload <;>
    simp [h]

/-- C1 witness: the amended statement evaluated on a concrete empty-portmap
configuration and a succeeding oracle. -/
theorem c1_amended_witness :
    AddHandleToScope addOkX (("h0").data) cfgNoPorts =
      ([RemoteCall.scopeAdd (("default").data) (("h0").data)
          { NetworkName := ("default").data, Ports := [] }],
       ("h0X").data, none) := by
  have h := c1_amended_empty_portmap_still_calls addOkX (("h0").data)
    cfgNoPorts rfl
  exact h.trans (by decide)

/-- C2 (code-bug evidence): on a configuration with one port binding whose
scope-join fails, the only remote call `AddHandleToScope` issues is the
AddContainer itself — the compensating RemoveContainer of the claim is never
attempted (the deferred rollback closure is registered only after the error
return, and sees `err == nil` on every path that registers it); the third
conjunct shows the rollback also never fires on the success path. -/
theorem c2_no_rollback_attempted :
    AddHandleToScope addFailBoom (("h0").data) cfgOnePort =
      ([RemoteCall.scopeAdd (("default").data) (("h0").data)
          { NetworkName := ("default").data,
            Ports := [("8080:80/tcp").data] }],
       ("h0").data, some (Err.internalServerError (("boom").data)))
    ∧ (AddHandleToScope addFailBoom (("h0").data) cfgOnePort).1.filter
        isScopeRemove = []
    ∧ (AddHandleToScope addOkX (("h0").data) cfgOnePort).1.filter
        isScopeRemove = [] := by
  decide

/-- C4: task path/argument resolution — a non-empty entrypoint gives
path = Entrypoint[0] and args = Entrypoint[1:] ++ Cmd; an empty entrypoint
with non-empty command gives path = Cmd[0] and args = Cmd[1:]. -/
theorem c4_task_path_args (id layerID e c : GoStr) (es cs : List GoStr)
    (ic : IsolationContainerConfig) :
    (ic.Entrypoint = e :: es →
      (IsolationContainerConfigToTask id layerID ic).map TaskJoinConfig.Path =
        some e
      ∧ (IsolationContainerConfigToTask id layerID ic).map
          TaskJoinConfig.Args = some (es ++ ic.Cmd))
    ∧ (ic.Entrypoint = [] → ic.Cmd = c :: cs →
      (IsolationContainerConfigToTask id layerID ic).map TaskJoinConfig.Path =
        some c
      ∧ (IsolationContainerConfigToTask id layerID ic).map
          TaskJoinConfig.Args = some cs) := by
  constructor
  · intro h
    simp [IsolationContainerConfigToTask, h]
  · intro h1 h2
    simp [IsolationContainerConfigToTask, h1, h2]

/-- C4 witness: both spec scenarios evaluated — command
`["/bin/sh","-c","echo hi"]` with empty entrypoint resolves to
`/bin/sh` with args `["-c","echo hi"]`; entrypoint `["/init"]` with command
`["--flag"]` resolves to `/init` with args `["--flag"]`. -/
theorem c4_witness :
    ((IsolationContainerConfigToTask (("cid").data) (("lay").data) ic4a).map
        TaskJoinConfig.Path = some (("/bin/sh").data)
      ∧ (IsolationContainerConfigToTask (("cid").data) (("lay").data)
          ic4a).map TaskJoinConfig.Args =
          some [("-c").data, ("echo hi").data])
    ∧ ((IsolationContainerConfigToTask (("cid").data) (("lay").data)
          ic4b).map TaskJoinConfig.Path = some (("/init").data)
      ∧ (IsolationContainerConfigToTask (("cid").data) (("lay").data)
          ic4b).map TaskJoinConfig.Args = some [("--flag").data]) :=
  ⟨(c4_task_path_args (("cid").data) (("lay").data) [] (("/bin/sh").data)
      [] [("-c").data, ("echo hi").data] ic4a).2 rfl rfl,
   (c4_task_path_args (("cid").data) (("lay").data) (("/init").data) []
      [] [] ic4b).1 rfl⟩

/-- C7: `CreatePod` translates and attempts every container of the pod, in
order, and returns nil whatever the per-container results are (failures are
only logged). -/
theorem c7_createPod_best_effort (create : ContainerCreateConfig → Option Err)
    (pod : Pod) :
    CreatePod create pod =
      (pod.Containers.map KubeSpecToDockerCreateSpec, none) := by
  simp [CreatePod, createPodLoop_eq_map]

/-- C8: every task-join request issued by `CreateHandleTask` has
`attach = true`, whatever the configuration's interactivity flags are. -/
theorem c8_attach_unconditional
    (joinRes : TaskJoinConfig → Except GoStr (Option GoStr))
    (bindRes : GoStr → GoStr → Except GoStr (Option GoStr))
    (handle id layerID : GoStr) (ic : IsolationContainerConfig)
    (calls : List RemoteCall) (res : Except Err GoStr) (cfg : TaskJoinConfig)
    (h1 : CreateHandleTask joinRes bindRes handle id layerID ic =
      some (calls, res))
    (h2 : RemoteCall.taskJoin cfg ∈ calls) : cfg.Attach = true := by
  unfold CreateHandleTask at h1
  rcases hT : IsolationContainerConfigToTask id layerID ic with _ | t0
  · rw [hT] at h1
    exact absurd h1 (by simp)
  · rw [hT] at h1
    have hA : t0.Attach = true := toTask_attach hT
    simp only at h1
    split at h1 <;> try split at h1
    all_goals
      simp only [Option.some.injEq, Prod.mk.injEq] at h1
      obtain ⟨hcalls, -⟩ := h1
      subst hcalls
      rcases List.mem_cons.mp h2 with h2 | h2
      · simp only [RemoteCall.taskJoin.injEq] at h2
        subst h2
        exact hA
      · simp at h2

/-- C8 witness: the attach flag of the concrete join request built from a
config with `Attach/Tty/OpenStdin/StdinOnce` all false. -/
theorem c8_witness : tW8.Attach = true :=
  c8_attach_unconditional joinW8 bindW8 (("h0").data) (("cid").data)
    (("lay").data) icW8
    [RemoteCall.taskJoin tW8,
     RemoteCall.taskBind (("h1").data) (("cid").data)]
    (Except.ok (("h2").data)) tW8 rfl (List.mem_cons_self _ _)

/-- C9: `VicImageStore.Get` swallows lookup and pull failures — a failed
first cache lookup with `actuate` false, or with a failed pull, returns the
looked-up (nil) config with a nil error; a non-nil error arises only when
the pull succeeds and the second lookup still fails, and then it is that
lookup's error. -/
theorem c9_get_swallows {α : Type} (c1 c2 : Option α) (e1 : GoStr)
    (e2 p : Option GoStr) (actuate : Bool) :
    VicImageStore.Get (c1, none) (c2, e2) p actuate = (c1, none)
    ∧ VicImageStore.Get (c1, some e1) (c2, e2) p false = (c1, none)
    ∧ (p.isSome = true →
        VicImageStore.Get (c1, some e1) (c2, e2) p true = (c1, none))
    ∧ (p = none → e2 = none →
        VicImageStore.Get (c1, some e1) (c2, e2) p true = (c2, none))
    ∧ (p = none → e2.isSome = true →
        VicImageStore.Get (c1, some e1) (c2, e2) p true = (none, e2)) := by
  refine ⟨?_, ?_, ?_, ?_, ?_⟩
  · simp [VicImageStore.Get]
  · simp [VicImageStore.Get]
  · intro hp
    obtain ⟨pe, rfl⟩ := Option.isSome_iff_exists.mp hp
    simp [VicImageStore.Get]
  · rintro rfl rfl
    simp [VicImageStore.Get]
  · rintro rfl h2
    obtain ⟨ee, rfl⟩ := Option.isSome_iff_exists.mp h2
    simp [VicImageStore.Get]

/-- C9 witness: failed first lookup, `actuate = true`, failed pull — the
config of the failed lookup is returned with a nil error. -/
theorem c9_witness :
    VicImageStore.Get ((some 1 : Option Nat), some (("not cached").data))
      ((none : Option Nat), some (("still missing").data))
      (some (("pull failed").data)) true = (some 1, none) :=
  (c9_get_swallows (some 1) none (("not cached").data)
    (some (("still missing").data)) (some (("pull failed").data)) true).2.2.1
    rfl

/-- C10: the kube→docker create-spec translation copies exactly
Name, Command (as Cmd), WorkingDir, Image, Tty, StdinOnce, OpenStdin and the
CPU/memory limits, leaves Entrypoint/Env (and the cpuset) at their zero
values, and is independent of the kube container's Args field. -/
theorem c10_kubeSpec_translation (cSpec : KubeContainer) :
    KubeSpecToDockerCreateSpec cSpec =
      { Name := cSpec.Name,
        Config := some { Cmd := cSpec.Command, Entrypoint := [], Env := [],
                         WorkingDir := cSpec.WorkingDir,
                         Image := cSpec.Image, User := [], Tty := cSpec.TTY,
                         StdinOnce := cSpec.StdinOnce,
                         OpenStdin := cSpec.Stdin },
        HostConfig := some { CPUCount := cSpec.CpuLimit, CpusetCpus := [],
                             Memory := cSpec.MemoryLimit } }
    ∧ (∀ kubeArgs : List GoStr,
        KubeSpecToDockerCreateSpec { cSpec with Args := kubeArgs } =
          KubeSpecToDockerCreateSpec cSpec) := by
  constructor
  · unfold KubeSpecToDockerCreateSpec
    rcases h : cSpec.Command with _ | ⟨a, as⟩ <;> simp [h]
  · intro kubeArgs
    rfl

/-! ### C3 and C5 fixtures -/

/-- Create config with CPU input 0 and empty cpuset (all zero values). -/
def cfg3cex : ContainerCreateConfig := { Config := some {}, HostConfig := some {} }

/-- Host config with CPU input 0 and cpuset "3". -/
def hcW3 : HostConfig := { CpusetCpus := ("3").data }

/-- Create config around `hcW3`. -/
def cfg3W : ContainerCreateConfig := { Config := some {}, HostConfig := some hcW3 }

/-- Create config with memory input 0 bytes. -/
def cfg5W : ContainerCreateConfig := { Config := some {}, HostConfig := some {} }

/-! ### C3 / C5 theorems -/

theorem normalizeMemoryMB_spec (memory : Int) :
    normalizeMemoryMB memory % MemoryAlignMB = 0
    ∧ MemoryMinMB ≤ normalizeMemoryMB memory
    ∧ (memory = 0 → normalizeMemoryMB memory = MemoryDefaultMB) := by
  unfold normalizeMemoryMB goMod goDiv
  simp only [MemoryAlignMB, MemoryMinMB, MemoryDefaultMB]
  generalize hm0 : Int.tdiv memory MiB = m0
  set m1 := if m0 = 0 then (2048 : Int) else if m0 < 512 then 512 else m0
    with hm1
  have hpos : 512 ≤ m1 := by
    rw [hm1]
    split_ifs <;> omega
  have htm : Int.tmod m1 128 = m1 % 128 :=
    Int.tmod_eq_emod (by omega) (by omega)
  rw [htm]
  refine ⟨?_, ?_, ?_⟩
  · split_ifs with hr <;> omega
  · split_ifs with hr <;> omega
  · intro hzero
    have h0 : m0 = 0 := by
      rw [← hm0, hzero]
      exact Int.zero_tdiv _
    have hm1v : m1 = 2048 := by rw [hm1, if_pos h0]
    rw [hm1v]
    decide

/-- C3 counterexample: CPU input 0 (≤ 0) with an empty cpuset is normalized
to `DefaultCPUs` = 2, not to the configured minimum `MinCPUs` = 1, and no
error is returned. -/
theorem c3_counterexample :
    (cfg3cex.HostConfig.getD {}).CPUCount ≤ 0
    ∧ (cfg3cex.HostConfig.getD {}).CpusetCpus = []
    ∧ ((validateCreateConfig cfg3cex).1.HostConfig.getD {}).CPUCount ≠ MinCPUs
    ∧ ((validateCreateConfig cfg3cex).1.HostConfig.getD {}).CPUCount =
        DefaultCPUs
    ∧ (validateCreateConfig cfg3cex).2 = none := by
  decide

/-- C3 (amended): for a create config with non-nil `Config` whose CPU input
is ≤ 0 — with an empty cpuset the normalized CPU count is the default
(`DefaultCPUs` = 2); with a cpuset whose first comma-separated token parses
to `c` it is `c` floored at `MinCPUs`; and with an unparsable cpuset
`validateCreateConfig` returns a parse error instead of normalizing. -/
theorem c3_amended_cpu_normalization (cfg : ContainerCreateConfig)
    (c0 : ContainerConfig) (hc : HostConfig) (c : Int)
    (h1 : cfg.Config = some c0) (h2 : cfg.HostConfig = some hc)
    (h3 : hc.CPUCount ≤ 0) :
    (hc.CpusetCpus = [] →
      ((validateCreateConfig cfg).1.HostConfig.getD {}).CPUCount = DefaultCPUs
      ∧ (validateCreateConfig cfg).2 = none)
    ∧ (goAtoi (cpusetFirst hc.CpusetCpus) = some c →
      ((validateCreateConfig cfg).1.HostConfig.getD {}).CPUCount =
        (if c < MinCPUs then MinCPUs else c)
      ∧ (validateCreateConfig cfg).2 = none)
    ∧ (hc.CpusetCpus ≠ [] →
      goAtoi (cpusetFirst hc.CpusetCpus) = none →
      (validateCreateConfig cfg).2 = some Err.cpuParseError) := by
  have hgt : ¬ (hc.CPUCount > 0) := by omega
  refine ⟨?_, ?_, ?_⟩
  · intro hcs
    constructor
    · simp [validateCreateConfig, h1, h2, hgt, hcs, MinCPUs, DefaultCPUs]
    · simp [validateCreateConfig, h1, h2, hgt, hcs]
  · intro hAtoi
    by_cases hcs : hc.CpusetCpus = []
    · rw [hcs] at hAtoi
      simp [cpusetFirst, goAtoi] at hAtoi
    · constructor
      · simp [validateCreateConfig, h1, h2, hgt, hcs, hAtoi]
      · simp [validateCreateConfig, h1, h2, hgt, hcs, hAtoi]
  · intro hcs hAtoi
    simp [validateCreateConfig, h1, h2, hgt, hcs, hAtoi]

/-- C3 witness: the amended statement on the concrete config with CPU input
0 and cpuset "3": the parsed value 3 (≥ `MinCPUs`) is kept. -/
theorem c3_amended_witness :
    (hcW3.CpusetCpus = [] →
      ((validateCreateConfig cfg3W).1.HostConfig.getD {}).CPUCount =
        DefaultCPUs
      ∧ (validateCreateConfig cfg3W).2 = none)
    ∧ (goAtoi (cpusetFirst hcW3.CpusetCpus) = some 3 →
      ((validateCreateConfig cfg3W).1.HostConfig.getD {}).CPUCount =
        (if (3 : Int) < MinCPUs then MinCPUs else 3)
      ∧ (validateCreateConfig cfg3W).2 = none)
    ∧ (hcW3.CpusetCpus ≠ [] →
      goAtoi (cpusetFirst hcW3.CpusetCpus) = none →
      (validateCreateConfig cfg3W).2 = some Err.cpuParseError) :=
  c3_amended_cpu_normalization cfg3W {} hcW3 3 rfl rfl (by decide)

/-- C5: on every successful run of `validateCreateConfig` (with non-nil
`Config` and a `HostConfig` carrying the memory input), the normalized
memory in MiB is a multiple of the alignment constant 128 and at least the
floor 512 (hence positive); a memory input of 0 bytes yields exactly the
default 2048 MiB (which is already aligned). -/
theorem validate_memory_eq (cfg : ContainerCreateConfig)
    (c0 : ContainerConfig) (hc0 : HostConfig)
    (h1 : cfg.Config = some c0) (h2 : cfg.HostConfig = some hc0)
    (h3 : (validateCreateConfig cfg).2 = none) :
    ((validateCreateConfig cfg).1.HostConfig.getD {}).Memory =
      normalizeMemoryMB hc0.Memory := by
  by_cases hCpu : hc0.CPUCount > 0
  · simp [validateCreateConfig, h1, h2, hCpu]
  · by_cases hcs : hc0.CpusetCpus = []
    · simp [validateCreateConfig, h1, h2, hCpu, hcs]
    · rcases hA : goAtoi (cpusetFirst hc0.CpusetCpus) with _ | c
      · simp [validateCreateConfig, h1, h2, hCpu, hcs, hA] at h3
      · simp [validateCreateConfig, h1, h2, hCpu, hcs, hA]

theorem c5_memory_normalized (cfg : ContainerCreateConfig)
    (c0 : ContainerConfig) (hc0 : HostConfig)
    (h1 : cfg.Config = some c0) (h2 : cfg.HostConfig = some hc0)
    (h3 : (validateCreateConfig cfg).2 = none) :
    ((validateCreateConfig cfg).1.HostConfig.getD {}).Memory % MemoryAlignMB
      = 0
    ∧ MemoryMinMB ≤ ((validateCreateConfig cfg).1.HostConfig.getD {}).Memory
    ∧ (hc0.Memory = 0 →
        ((validateCreateConfig cfg).1.HostConfig.getD {}).Memory =
          MemoryDefaultMB) := by
  have hmem := validate_memory_eq cfg c0 hc0 h1 h2 h3
  rw [hmem]
  exact normalizeMemoryMB_spec hc0.Memory

/-- C5 witness: memory input 0 bytes is normalized to 2048 MiB, aligned and
above the floor. -/
theorem c5_witness :
    ((validateCreateConfig cfg5W).1.HostConfig.getD {}).Memory % MemoryAlignMB
      = 0
    ∧ MemoryMinMB ≤ ((validateCreateConfig cfg5W).1.HostConfig.getD {}).Memory
    ∧ (({} : HostConfig).Memory = 0 →
        ((validateCreateConfig cfg5W).1.HostConfig.getD {}).Memory =
          MemoryDefaultMB) :=
  c5_memory_normalized cfg5W {} {} rfl rfl (by decide)

/-! ### C6 helper lemmas -/

theorem goHasPfx_iff (s p : GoStr) : goHasPfx s p = true ↔ ∃ t, s = p ++ t := by
  induction p generalizing s with
  | nil => simp [goHasPfx]
  | cons p ps ih =>
    cases s with
    | nil => simp [goHasPfx]
    | cons c cs =>
      simp [goHasPfx, Bool.and_eq_true, beq_iff_eq, ih, List.cons.injEq,
        exists_and_left]

theorem isPathEntry_key {e : GoStr} (h : isPathEntry e = true) :
    splitKey e = ("PATH").data := by
  have h' : goHasPfx e (("PATH=").data) = true := h
  obtain ⟨t, rfl⟩ := (goHasPfx_iff e (("PATH=").data)).mp h'
  rfl

theorem contains_eq_true_iff (l : List GoStr) (a : GoStr) :
    l.contains a = true ↔ a ∈ l := List.elem_iff

theorem countPATH_append (a b : List GoStr) :
    countPATH (a ++ b) = countPATH a + countPATH b := by
  simp [countPATH, List.filter_append]

theorem countPATH_pos {env : List GoStr} (h : env.any isPathEntry = true) :
    1 ≤ countPATH env := by
  obtain ⟨x, hx, hpx⟩ := List.any_eq_true.mp h
  have hm : x ∈ env.filter isPathEntry := List.mem_filter.mpr ⟨hx, hpx⟩
  have hlen := List.length_pos.mpr (List.ne_nil_of_mem hm)
  simpa [countPATH] using hlen

theorem setPath_cases (env imgEnv : List GoStr) :
    (env.any isPathEntry = true ∧ setPathFromImageConfig env imgEnv = env)
    ∨ (env.any isPathEntry = false ∧ countPATH env = 0 ∧
        ∃ v, setPathFromImageConfig env imgEnv = env ++ [v] ∧
          isPathEntry v = true) := by
  rcases hany : env.any isPathEntry with _ | _
  · right
    refine ⟨rfl, ?_, ?_⟩
    · simp only [countPATH, List.length_eq_zero, List.filter_eq_nil_iff]
      exact List.any_eq_false.mp hany
    · unfold setPathFromImageConfig
      simp only [hany, Bool.false_eq_true, if_false]
      cases hf : imgEnv.find? isPathEntry with
      | some v => exact ⟨v, rfl, List.find?_some hf⟩
      | none => exact ⟨_, rfl, by decide⟩
  · left
    refine ⟨rfl, ?_⟩
    simp [setPathFromImageConfig, hany]

theorem envMergeAfterPath_facts (tty : Bool) (env1 imgEnv : List GoStr)
    (hc1 : countPATH env1 = 1) :
    countPATH (envMergeAfterPath tty env1 imgEnv) = 1
    ∧ (tty = true →
        (envMergeAfterPath tty env1 imgEnv).any
          (fun e => splitKey e == ("TERM").data) = true)
    ∧ (envMergeAfterPath tty env1 imgEnv).filter isPathEntry =
        env1.filter isPathEntry
    ∧ (("TERM").data ∈ env1.map splitKey →
        (envMergeAfterPath tty env1 imgEnv).filter
            (fun e => splitKey e == ("TERM").data) =
          env1.filter (fun e => splitKey e == ("TERM").data)) := by
  have hPATHkeys : ("PATH").data ∈ env1.map splitKey := by
    have hne : env1.filter isPathEntry ≠ [] := by
      intro hnil
      unfold countPATH at hc1
      rw [hnil] at hc1
      simp at hc1
    obtain ⟨x, hx⟩ := List.exists_mem_of_ne_nil _ hne
    have hx' := List.mem_filter.mp hx
    exact List.mem_map.mpr ⟨x, hx'.1, isPathEntry_key hx'.2⟩
  have hkeptPath :
      List.filter isPathEntry
        (imgEnv.filter
          (fun e => !((env1.map splitKey).contains (splitKey e)))) = [] := by
    rw [List.filter_eq_nil_iff]
    intro a ha hpa
    have h1 : (!((env1.map splitKey).contains (splitKey a))) = true :=
      (List.mem_filter.mp ha).2
    have h3 := (contains_eq_true_iff (env1.map splitKey)
      (("PATH").data)).mpr hPATHkeys
    rw [isPathEntry_key hpa, h3] at h1
    simp at h1
  refine ⟨?_, ?_, ?_, ?_⟩
  · simp only [envMergeAfterPath]
    have hk0 : countPATH (imgEnv.filter
        (fun e => !((env1.map splitKey).contains (splitKey e)))) = 0 := by
      unfold countPATH
      rw [hkeptPath]
      rfl
    by_cases hif :
        (tty && !((env1.map splitKey).contains (("TERM").data))) = true
    · rw [if_pos hif, countPATH_append, countPATH_append, hc1, hk0]
      decide
    · rw [if_neg hif, countPATH_append, hc1, hk0]
  · intro htty
    subst htty
    simp only [envMergeAfterPath]
    by_cases hct : ((env1.map splitKey).contains (("TERM").data)) = true
    · rw [if_neg (by rw [hct]; simp)]
      obtain ⟨e, he, hke⟩ := List.mem_map.mp
        ((contains_eq_true_iff _ _).mp hct)
      refine List.any_eq_true.mpr ⟨e, List.mem_append_left _ he, ?_⟩
      simp [hke]
    · have hcf : ((env1.map splitKey).contains (("TERM").data)) = false := by
        simpa using hct
      rw [if_pos (by rw [hcf]; simp)]
      refine List.any_eq_true.mpr ⟨("TERM=xterm").data, ?_, by decide⟩
      exact List.mem_append_left _ (List.mem_append_right _ (by simp))
  · simp only [envMergeAfterPath]
    by_cases hif :
        (tty && !((env1.map splitKey).contains (("TERM").data))) = true
    · rw [if_pos hif, List.filter_append, List.filter_append, hkeptPath,
        List.append_nil]
      have hX : List.filter isPathEntry [("TERM=xterm").data] = [] := by
        decide
      rw [hX, List.append_nil]
    · rw [if_neg hif, List.filter_append, hkeptPath, List.append_nil]
  · intro hTERM
    have hct : ((env1.map splitKey).contains (("TERM").data)) = true :=
      (contains_eq_true_iff _ _).mpr hTERM
    simp only [envMergeAfterPath]
    rw [if_neg (by rw [hct]; simp)]
    rw [List.filter_append]
    have hkeptTERM : List.filter (fun e => splitKey e == ("TERM").data)
        (imgEnv.filter
          (fun e => !((env1.map splitKey).contains (splitKey e)))) = [] := by
      rw [List.filter_eq_nil_iff]
      intro a ha hta
      have h1 : (!((env1.map splitKey).contains (splitKey a))) = true :=
        (List.mem_filter.mp ha).2
      have hka : splitKey a = ("TERM").data := by
        simpa [beq_iff_eq] using hta
      rw [hka, hct] at h1
      simp at h1
    rw [hkeptTERM, List.append_nil]

/-- C6 counterexample: a user environment with two `PATH=` entries survives
the merge with both entries intact — the result does not contain exactly one
`PATH` entry. -/
theorem c6_counterexample :
    countPATH (setEnvFromImageConfig false
        [("PATH=a").data, ("PATH=b").data] []) = 2
    ∧ countPATH (setEnvFromImageConfig false
        [("PATH=a").data, ("PATH=b").data] []) ≠ 1 := by
  decide

/-- C6 (amended): for every create config whose user environment contains at
most one `PATH=` entry, the merged environment contains exactly one `PATH=`
entry; when tty is set it contains an entry whose key is `TERM`; and when
the user environment defines `PATH` (resp. an entry keyed `TERM`), the
`PATH=`-prefixed (resp. `TERM`-keyed) entries of the result are exactly the
user's — image-supplied values never displace them. -/
theorem c6_amended_env_merge (tty : Bool) (env imgEnv : List GoStr)
    (hcount : countPATH env ≤ 1) :
    countPATH (setEnvFromImageConfig tty env imgEnv) = 1
    ∧ (tty = true →
        (setEnvFromImageConfig tty env imgEnv).any
          (fun e => splitKey e == ("TERM").data) = true)
    ∧ (env.any isPathEntry = true →
        (setEnvFromImageConfig tty env imgEnv).filter isPathEntry =
          env.filter isPathEntry)
    ∧ (("TERM").data ∈ env.map splitKey →
        (setEnvFromImageConfig tty env imgEnv).filter
            (fun e => splitKey e == ("TERM").data) =
          env.filter (fun e => splitKey e == ("TERM").data)) := by
  rcases setPath_cases env imgEnv with ⟨hany, heq⟩ | ⟨hany, hzero, v, heq, hv⟩
  · have hc1 : countPATH env = 1 :=
      le_antisymm hcount (countPATH_pos hany)
    obtain ⟨f1, f2, f3, f4⟩ := envMergeAfterPath_facts tty env imgEnv hc1
    rw [setEnvFromImageConfig, heq]
    exact ⟨f1, f2, fun _ => f3, f4⟩
  · have hc1 : countPATH (env ++ [v]) = 1 := by
      rw [countPATH_append, hzero]
      unfold countPATH
      simp [hv]
    obtain ⟨f1, f2, f3, f4⟩ := envMergeAfterPath_facts tty (env ++ [v])
      imgEnv hc1
    rw [setEnvFromImageConfig, heq]
    refine ⟨f1, f2, ?_, ?_⟩
    · intro hanyT
      rw [hanyT] at hany
      exact absurd hany (by simp)
    · intro hTERM
      have hTERM1 : ("TERM").data ∈ (env ++ [v]).map splitKey := by
        rw [List.map_append]
        exact List.mem_append_left _ hTERM
      rw [f4 hTERM1, List.filter_append]
      have hkv := isPathEntry_key hv
      have hne : (("PATH").data == ("TERM").data) = false := by decide
      have hfv : List.filter (fun e => splitKey e == ("TERM").data) [v]
          = [] := by
        simp [hkv, hne]
      rw [hfv, List.append_nil]

/-- C6 witness: user env `[PATH=u, TERM=mine]` with tty and image env
`[PATH=i, TERM=img, FOO=1]` — one PATH entry, TERM present, user values
kept. -/
theorem c6_witness :
    countPATH (setEnvFromImageConfig true
        [("PATH=u").data, ("TERM=mine").data]
        [("PATH=i").data, ("TERM=img").data, ("FOO=1").data]) = 1
    ∧ (true = true →
        (setEnvFromImageConfig true
            [("PATH=u").data, ("TERM=mine").data]
            [("PATH=i").data, ("TERM=img").data, ("FOO=1").data]).any
          (fun e => splitKey e == ("TERM").data) = true)
    ∧ ([("PATH=u").data, ("TERM=mine").data].any isPathEntry = true →
        (setEnvFromImageConfig true
            [("PATH=u").data, ("TERM=mine").data]
            [("PATH=i").data, ("TERM=img").data, ("FOO=1").data]).filter
          isPathEntry =
          [("PATH=u").data, ("TERM=mine").data].filter isPathEntry)
    ∧ (("TERM").data ∈ [("PATH=u").data, ("TERM=mine").data].map splitKey →
        (setEnvFromImageConfig true
            [("PATH=u").data, ("TERM=mine").data]
            [("PATH=i").data, ("TERM=img").data, ("FOO=1").data]).filter
            (fun e => splitKey e == ("TERM").data) =
          [("PATH=u").data, ("TERM=mine").data].filter
            (fun e => splitKey e == ("TERM").data)) :=
  c6_amended_env_merge true [("PATH=u").data, ("TERM=mine").data]
    [("PATH=i").data, ("TERM=img").data, ("FOO=1").data] (by decide)
